import Mathlib

set_option maxRecDepth 4096

/-!
Shallow embedding of the platform-mcp repository (src/main.py and
src/mcp-bridge.py) and verification of its specification claims.

`PyVal` models Python/JSON values; dictionaries are association lists.
-/

/-- Model of a Python/JSON value (as produced by `json.loads` or built by
the handlers). `null` is Python `None`. -/
inductive PyVal where
  | null
  | bool (b : Bool)
  | int (n : Int)
  | str (s : String)
  | list (xs : List PyVal)
  | dict (kvs : List (String × PyVal))
deriving Repr

/-- Python truthiness test (`if not x`): `None`, `False`, `0`, `""`, `[]`
and `{}` are falsy. -/
def isFalsy : PyVal → Bool
  | PyVal.null => true
  | PyVal.bool b => !b
  | PyVal.int n => n == 0
  | PyVal.str s => s == ""
  | PyVal.list xs => xs.isEmpty
  | PyVal.dict kvs => kvs.isEmpty

/-- `d.get(k)` on a Python dict: the stored value, or `None` when absent. -/
def dictGet (d : List (String × PyVal)) (k : String) : PyVal :=
  match d.find? (fun kv => kv.1 == k) with
  | some kv => kv.2
  | Option.none => PyVal.null

/-- `d.get(k, dflt)` on a Python dict. -/
def dictGetD (d : List (String × PyVal)) (k : String) (dflt : PyVal) : PyVal :=
  match d.find? (fun kv => kv.1 == k) with
  | some kv => kv.2
  | Option.none => dflt

/-- Whether a Python dict has the key `k` (`k in d`). -/
def hasKey (d : List (String × PyVal)) (k : String) : Bool :=
  (d.find? (fun kv => kv.1 == k)).isSome

/-- `.get(k)` lifted to a `PyVal` that is expected to be a dict. -/
def pyGet (v : PyVal) (k : String) : PyVal :=
  match v with
  | PyVal.dict d => dictGet d k
  | _ => PyVal.null

/-- Whether a `PyVal` is a dict containing the key `k`. -/
def pyHasKey (v : PyVal) (k : String) : Bool :=
  match v with
  | PyVal.dict d => hasKey d k
  | _ => false

/-- Python `str()` on the scalar values the embedded code interpolates
into f-strings. -/
def pyToStr : PyVal → String
  | PyVal.null => "None"
  | PyVal.bool b => if b then "True" else "False"
  | PyVal.int n => toString n
  | PyVal.str s => s
  | PyVal.list _ => "[...]"
  | PyVal.dict _ => "\x7b...\x7d"

mutual

/-- `json.dumps` with the default separators (", " between items and
": " between key and value), as used throughout both source files. -/
def jsonDumps : PyVal → String
  | PyVal.null => "null"
  | PyVal.bool b => if b then "true" else "false"
  | PyVal.int n => toString n
  | PyVal.str s => "\"" ++ s ++ "\""
  | PyVal.list xs => "[" ++ jsonDumpsList xs ++ "]"
  | PyVal.dict kvs => "\x7b" ++ jsonDumpsDict kvs ++ "\x7d"

def jsonDumpsList : List PyVal → String
  | [] => ""
  | [x] => jsonDumps x
  | x :: y :: xs => jsonDumps x ++ ", " ++ jsonDumpsList (y :: xs)

def jsonDumpsDict : List (String × PyVal) → String
  | [] => ""
  | [kv] => "\"" ++ kv.1 ++ "\": " ++ jsonDumps kv.2
  | kv :: kv2 :: kvs => "\"" ++ kv.1 ++ "\": " ++ jsonDumps kv.2 ++ ", " ++ jsonDumpsDict (kv2 :: kvs)

end

/-- The dict `{"error": msg}`. -/
def errDict (msg : String) : PyVal :=
  PyVal.dict [("error", PyVal.str msg)]

/-!
## Upstream Client: `MCPServer._make_api_request` (src/main.py lines 101-150)

One upstream attempt is modelled by its observable outcome: an HTTP
response (status, body text, and the body's JSON parse when it parses),
a timeout (`asyncio.TimeoutError`), or any other transport exception.
A stub upstream is a function from the attempt index (0-based) to the
outcome of that attempt.
-/

/-- Outcome of a single upstream HTTP attempt.  `resp st body js` is an
HTTP response with status `st`, body text `body`, and `js` the result of
attempting to parse the body as JSON (`Option.none` when `response.json()`
raises). -/
inductive UpResponse where
  | resp (st : Nat) (body : String) (js : Option PyVal)
  | timeout
  | exc (msg : String)

/-- An attempt outcome on which the loop in `_make_api_request` retries
(when it is not the final attempt): HTTP 401, a timeout, or a
transport-level exception. -/
def isTransient : UpResponse → Bool
  | UpResponse.resp st _ _ => st == 401
  | UpResponse.timeout => true
  | UpResponse.exc _ => true

/-- The loop body of `MCPServer._make_api_request` (src/main.py lines
111-150).  `attempt` is the current 0-based attempt index and `fuel` the
number of loop iterations left (`fuel = max_retry_attempts - attempt`),
so `fuel = 0` after the loop and `fuel = 1` exactly on the final attempt
(`attempt == max_retry_attempts - 1`).  Returns the produced dict and
the number of upstream invocations performed from this point on. -/
def makeApiRequestAux (stub : Nat → UpResponse) (attempt : Nat) : Nat → PyVal × Nat
  | 0 => (errDict "Max retry attempts exceeded", 0)
  | fuel + 1 =>
    match stub attempt with
    | UpResponse.resp st body js =>
      if st = 401 then
        if fuel = 0 then (errDict "Authentication failed after all retry attempts", 1)
        else
          let r := makeApiRequestAux stub (attempt + 1) fuel
          (r.1, r.2 + 1)
      else if 400 ≤ st then
        (errDict ("API request failed: " ++ toString st), 1)
      else
        match js with
        | some v => (v, 1)
        | Option.none => (PyVal.dict [("data", PyVal.str body)], 1)
    | UpResponse.timeout =>
      if fuel = 0 then (errDict "Request timeout after all retry attempts", 1)
      else
        let r := makeApiRequestAux stub (attempt + 1) fuel
        (r.1, r.2 + 1)
    | UpResponse.exc m =>
      if fuel = 0 then (errDict ("Request failed: " ++ m), 1)
      else
        let r := makeApiRequestAux stub (attempt + 1) fuel
        (r.1, r.2 + 1)

/-- `MCPServer._make_api_request` run against a stub upstream with
`maxRetry = self.auth_config.max_retry_attempts`: the returned dict,
paired with the total number of upstream invocations. -/
def makeApiRequest (stub : Nat → UpResponse) (maxRetry : Nat) : PyVal × Nat :=
  makeApiRequestAux stub 0 maxRetry

/-- Stub for the C1 witness: 401 on the first attempt, 200 on the second. -/
def c1stub : Nat → UpResponse :=
  fun i => if i = 0 then UpResponse.resp 401 "unauthorized" Option.none
           else UpResponse.resp 200 "\x7b\x7d" (some (PyVal.dict []))

/-- Stub for the C1 witness: always 401. -/
def c1stubAll : Nat → UpResponse := fun _ => UpResponse.resp 401 "unauthorized" Option.none

/-!
## MCPServer and the Tool Dispatcher (src/main.py lines 66-268)

`MCPServer.__init__` (lines 67-75) sets exactly the instance attributes
`dch_api_url`, `platform_api_url` and `auth_config`; the auth config
(lines 27-55) carries the tokens and `max_retry_attempts`.  The tool
handlers, however, reference `self.api_base_url`, `self.api_gateway_url`,
`self._get_api_headers` and `self._get_gateway_headers`, none of which is
ever assigned or defined — in Python such an access raises
`AttributeError`.  Attribute lookup is modelled explicitly by
`Server.getattr` below, which returns `some` precisely for the attributes
`__init__` assigns.
-/

/-- The state of an `MCPServer` instance: the attributes assigned in
`MCPServer.__init__` and `AuthConfig.__init__` (src/main.py 27-75). -/
structure Server where
  dch_api_url : String
  platform_api_url : String
  mcp_server_token : String
  dch_api_token : String
  platform_api_token : String
  max_retry_attempts : Nat

/-- Python attribute lookup for the string-valued URL attributes the
handlers read from `self`.  Only `dch_api_url` and `platform_api_url`
are assigned by `__init__`; any other name raises `AttributeError`
(modelled as `Option.none`).  In particular `api_base_url` and
`api_gateway_url`, which the handlers use, are absent. -/
def Server.getattr (s : Server) : String → Option String
  | "dch_api_url" => some s.dch_api_url
  | "platform_api_url" => some s.platform_api_url
  | _ => Option.none

/-- `MCPServer._get_dch_api_headers` (src/main.py lines 77-87). -/
def getDchApiHeaders (s : Server) : List (String × String) :=
  [("Content-Type", "application/json"),
   ("Authorization", "Bearer " ++ s.dch_api_token),
   ("X-MCP-Service", "claude-mcp-server"),
   ("X-MCP-Version", "1.0.0")]

/-- `MCPServer._get_platform_api_headers` (src/main.py lines 89-99). -/
def getPlatformApiHeaders (s : Server) : List (String × String) :=
  [("Content-Type", "application/json"),
   ("Authorization", "Bearer " ++ s.platform_api_token),
   ("X-MCP-Service", "claude-mcp-server"),
   ("X-MCP-Version", "1.0.0")]

/-- Python method lookup for the header-builder methods the handlers
call on `self`.  The methods defined on `MCPServer` are
`_get_dch_api_headers` and `_get_platform_api_headers`; the names the
handlers actually use (`_get_api_headers`, `_get_gateway_headers`) are
absent and raise `AttributeError`. -/
def Server.getHeaderMethod (s : Server) : String → Option (PyVal → List (String × String))
  | "_get_dch_api_headers" => some (fun _ => getDchApiHeaders s)
  | "_get_platform_api_headers" => some (fun _ => getPlatformApiHeaders s)
  | _ => Option.none

/-- The message of a Python `AttributeError` on an `MCPServer` instance. -/
def noAttrMsg (name : String) : String :=
  "\x27MCPServer\x27 object has no attribute \x27" ++ name ++ "\x27"

/-- Outcome of running one tool handler body: a returned dict, a raised
exception (message of `str(e)`), or a call to `_make_api_request` with
the request's data and a continuation applied to its result. -/
inductive HandlerOutcome where
  | ret (v : PyVal)
  | raise (msg : String)
  | call (method url : String) (headers : List (String × String))
      (jsonData : Option PyVal) (params : List (String × PyVal))
      (k : PyVal → PyVal)

/-- The success envelope `{"content": [{"type": "text", "text": json.dumps(result)}]}`. -/
def contentEnvelope (result : PyVal) : PyVal :=
  PyVal.dict [("content", PyVal.list
    [PyVal.dict [("type", PyVal.str "text"), ("text", PyVal.str (jsonDumps result))]])]

/-- `MCPServer._get_user_data` (src/main.py lines 171-187).  After the
`user_id` check the f-string for `url` evaluates `self.api_base_url`,
which raises `AttributeError`. -/
def getUserData (s : Server) (args : List (String × PyVal)) : HandlerOutcome :=
  let user_id := dictGet args "user_id"
  let user_token := dictGet args "token"
  if isFalsy user_id then HandlerOutcome.ret (errDict "user_id is required")
  else
    match s.getattr "api_base_url" with
    | Option.none => HandlerOutcome.raise (noAttrMsg "api_base_url")
    | some base =>
      let url := base ++ "/users/" ++ pyToStr user_id
      match s.getHeaderMethod "_get_api_headers" with
      | Option.none => HandlerOutcome.raise (noAttrMsg "_get_api_headers")
      | some mk =>
        HandlerOutcome.call "GET" url (mk user_token) Option.none []
          (fun result =>
            if pyHasKey result "error" then contentEnvelope result
            else contentEnvelope result)

/-- `MCPServer._get_user_orders` (src/main.py lines 189-203). -/
def getUserOrders (s : Server) (args : List (String × PyVal)) : HandlerOutcome :=
  let user_id := dictGet args "user_id"
  let user_token := dictGet args "token"
  let limit := dictGetD args "limit" (PyVal.int 10)
  if isFalsy user_id then HandlerOutcome.ret (errDict "user_id is required")
  else
    match s.getattr "api_base_url" with
    | Option.none => HandlerOutcome.raise (noAttrMsg "api_base_url")
    | some base =>
      let url := base ++ "/users/" ++ pyToStr user_id ++ "/orders"
      match s.getHeaderMethod "_get_api_headers" with
      | Option.none => HandlerOutcome.raise (noAttrMsg "_get_api_headers")
      | some mk =>
        HandlerOutcome.call "GET" url (mk user_token) Option.none [("limit", limit)]
          contentEnvelope

/-- `MCPServer._update_user_settings` (src/main.py lines 205-222). -/
def updateUserSettings (s : Server) (args : List (String × PyVal)) : HandlerOutcome :=
  let user_id := dictGet args "user_id"
  let settings := dictGet args "settings"
  let user_token := dictGet args "token"
  if isFalsy user_id || isFalsy settings then
    HandlerOutcome.ret (errDict "user_id and settings are required")
  else
    match s.getattr "api_base_url" with
    | Option.none => HandlerOutcome.raise (noAttrMsg "api_base_url")
    | some base =>
      let url := base ++ "/users/" ++ pyToStr user_id ++ "/settings"
      match s.getHeaderMethod "_get_api_headers" with
      | Option.none => HandlerOutcome.raise (noAttrMsg "_get_api_headers")
      | some mk =>
        HandlerOutcome.call "PUT" url (mk user_token) (some settings) []
          (fun result =>
            if !(pyHasKey result "error") then
              PyVal.dict [("content", PyVal.list
                [PyVal.dict [("type", PyVal.str "text"),
                             ("text", PyVal.str "Settings updated successfully")]])]
            else contentEnvelope result)

/-- `MCPServer._call_lambda_api` (src/main.py lines 224-237).  The url
f-string evaluates `self.api_gateway_url`, which raises. -/
def callLambdaApi (s : Server) (args : List (String × PyVal)) : HandlerOutcome :=
  let endpoint := dictGet args "endpoint"
  let payload := dictGetD args "payload" (PyVal.dict [])
  let user_token := dictGet args "token"
  if isFalsy endpoint then HandlerOutcome.ret (errDict "endpoint is required")
  else
    match s.getattr "api_gateway_url" with
    | Option.none => HandlerOutcome.raise (noAttrMsg "api_gateway_url")
    | some gw =>
      let url := gw ++ "/" ++ (pyToStr endpoint).dropWhile (· = '/')
      match s.getHeaderMethod "_get_gateway_headers" with
      | Option.none => HandlerOutcome.raise (noAttrMsg "_get_gateway_headers")
      | some mk =>
        HandlerOutcome.call "POST" url (mk user_token) (some payload) []
          contentEnvelope

/-- `MCPServer._search_users` (src/main.py lines 239-252). -/
def searchUsers (s : Server) (args : List (String × PyVal)) : HandlerOutcome :=
  let query := dictGet args "query"
  let limit := dictGetD args "limit" (PyVal.int 10)
  if isFalsy query then HandlerOutcome.ret (errDict "query is required")
  else
    match s.getattr "api_base_url" with
    | Option.none => HandlerOutcome.raise (noAttrMsg "api_base_url")
    | some base =>
      let url := base ++ "/admin/users/search"
      match s.getHeaderMethod "_get_api_headers" with
      | Option.none => HandlerOutcome.raise (noAttrMsg "_get_api_headers")
      | some mk =>
        HandlerOutcome.call "GET" url (mk PyVal.null) Option.none
          [("q", query), ("limit", limit)] contentEnvelope

/-- Runs a handler outcome under `call_tool`'s `try`/`except`
(src/main.py lines 154-169): a raised exception becomes
`{"error": str(e)}`; a call to `_make_api_request` runs against the stub
upstream.  Returns the produced dict and the number of upstream
invocations. -/
def runHandler (stub : Nat → UpResponse) (maxRetry : Nat) : HandlerOutcome → PyVal × Nat
  | HandlerOutcome.ret v => (v, 0)
  | HandlerOutcome.raise m => (errDict m, 0)
  | HandlerOutcome.call _ _ _ _ _ k =>
    let r := makeApiRequest stub maxRetry
    (k r.1, r.2)

/-- `MCPServer.call_tool` (src/main.py lines 152-169): the tool-name
dispatch chain, with exceptions converted to `{"error": str(e)}`. -/
def call_tool (s : Server) (stub : Nat → UpResponse) (name : String)
    (args : List (String × PyVal)) : PyVal × Nat :=
  if name = "get_user_data" then runHandler stub s.max_retry_attempts (getUserData s args)
  else if name = "get_user_orders" then runHandler stub s.max_retry_attempts (getUserOrders s args)
  else if name = "update_user_settings" then
    runHandler stub s.max_retry_attempts (updateUserSettings s args)
  else if name = "call_lambda_api" then runHandler stub s.max_retry_attempts (callLambdaApi s args)
  else if name = "search_users" then runHandler stub s.max_retry_attempts (searchUsers s args)
  else (errDict ("Unknown tool: " ++ name), 0)

/-- Python `s.startswith(pre)`, computed on the character lists. -/
def strStartsWith (s pre : String) : Bool :=
  pre.data.isPrefixOf s.data

/-- `MCPServer.read_resource` (src/main.py lines 254-268), with
`uri.startswith(...)` modelled by `strStartsWith`.  Inside the matching
branch the url f-string evaluates `self.api_base_url`, which raises
`AttributeError`; the handler's own `except` turns it into
`{"content": json.dumps({"error": str(e)})}`. -/
def read_resource (s : Server) (stub : Nat → UpResponse) (uri : String) : PyVal × Nat :=
  if strStartsWith uri "webapp://current-state/" then
    let user_id := ((uri.splitOn "/").getLastD "")
    match s.getattr "api_base_url" with
    | Option.none =>
      (PyVal.dict [("content",
        PyVal.str (jsonDumps (errDict (noAttrMsg "api_base_url"))))], 0)
    | some base =>
      let _url := base ++ "/users/" ++ user_id ++ "/current-state"
      match s.getHeaderMethod "_get_api_headers" with
      | Option.none =>
        (PyVal.dict [("content",
          PyVal.str (jsonDumps (errDict (noAttrMsg "_get_api_headers"))))], 0)
      | some mk =>
        let _headers := mk PyVal.null
        let r := makeApiRequest stub s.max_retry_attempts
        (PyVal.dict [("content", PyVal.str (jsonDumps r.1))], r.2)
  else
    (PyVal.dict [("content", PyVal.str (jsonDumps (errDict "Resource not found")))], 0)

/-- Concrete server state for witnesses and counterexamples. -/
def sampleServer : Server :=
  ⟨"https://dch.example", "https://platform.example",
   "mcp-token", "dch-token", "platform-token", 3⟩

/-- A stub upstream for witnesses that never answers (any tool call that
reached the network would time out); used to demonstrate zero-invocation
results. -/
def stubU : Nat → UpResponse := fun _ => UpResponse.timeout

/-!
## Stream Transport Adapter: `main` in src/mcp-bridge.py (lines 140-260)

A stdin line is modelled by the outcome of `line.strip()` and
`json.loads(line)`: blank (skipped), malformed JSON (carrying the
decoder's message), or a parsed JSON value.  The two HTTP forwards
(`bridge.call_tool`, `bridge.read_resource`) are stub functions — in the
source they go through `make_request`, which catches every exception and
always returns a dict, so a total function is a faithful model.
-/

/-- One stdin line as seen by the loop body. -/
inductive Line where
  | blank
  | malformed (emsg : String)
  | parsed (j : PyVal)

/-- Result of processing one line: the JSON-RPC responses written to
stdout, and whether the loop survives to the next line.  `fatal` models
an exception escaping the per-line `except` block (for a non-dict JSON
line, `request.get("id")` inside the handler raises again), which aborts
the read loop. -/
inductive StepResult where
  | ok (out : List PyVal)
  | fatal (out : List PyVal)

/-- Python `v == "<literal>"` for a JSON value against a string. -/
def isStr (v : PyVal) (t : String) : Bool :=
  match v with
  | PyVal.str s => s == t
  | _ => false

/-- Python type name, as it appears in `AttributeError` messages. -/
def typeName : PyVal → String
  | PyVal.null => "NoneType"
  | PyVal.bool _ => "bool"
  | PyVal.int _ => "int"
  | PyVal.str _ => "str"
  | PyVal.list _ => "list"
  | PyVal.dict _ => "dict"

/-- `str(e)` of the `AttributeError` raised by `p.get(...)` when `p` is
not a dict. -/
def noGetMsg (p : PyVal) : String :=
  "\x27" ++ typeName p ++ "\x27 object has no attribute \x27get\x27"

/-- A JSON-RPC success response `{"jsonrpc": "2.0", "id": rid, "result": res}`. -/
def rpcResult (rid res : PyVal) : PyVal :=
  PyVal.dict [("jsonrpc", PyVal.str "2.0"), ("id", rid), ("result", res)]

/-- A JSON-RPC error response `{"jsonrpc": "2.0", "id": rid, "error": {"code": c, "message": m}}`. -/
def rpcError (rid : PyVal) (code : Int) (msg : String) : PyVal :=
  PyVal.dict [("jsonrpc", PyVal.str "2.0"), ("id", rid),
    ("error", PyVal.dict [("code", PyVal.int code), ("message", PyVal.str msg)])]

/-- The parse-error response built at src/mcp-bridge.py lines 160-163.
Note: the dict literal there has no `"id"` member at all. -/
def parseErrorResponse (emsg : String) : PyVal :=
  PyVal.dict [("jsonrpc", PyVal.str "2.0"),
    ("error", PyVal.dict [("code", PyVal.int (-32700)),
      ("message", PyVal.str ("Parse error: " ++ emsg))])]

/-- `initialize` result (src/mcp-bridge.py lines 178-188). -/
def initializeResult : PyVal :=
  PyVal.dict [("protocolVersion", PyVal.str "2025-06-18"),
    ("capabilities", PyVal.dict [("tools", PyVal.dict []), ("resources", PyVal.dict [])]),
    ("serverInfo", PyVal.dict [("name", PyVal.str "webapp-mcp-bridge-standalone"),
      ("version", PyVal.str "1.0.0")])]

/-- `MCPHTTPBridge.list_tools` (src/mcp-bridge.py lines 63-114). -/
def bridgeToolsList : PyVal :=
  PyVal.dict [("tools", PyVal.list
    [PyVal.dict [("name", PyVal.str "get_user_data"),
      ("description", PyVal.str "Get user profile and account information"),
      ("inputSchema", PyVal.dict [("type", PyVal.str "object"),
        ("properties", PyVal.dict
          [("user_id", PyVal.dict [("type", PyVal.str "string"),
             ("description", PyVal.str "User ID")]),
           ("token", PyVal.dict [("type", PyVal.str "string"),
             ("description", PyVal.str "User auth token (optional)")])]),
        ("required", PyVal.list [PyVal.str "user_id"])])],
     PyVal.dict [("name", PyVal.str "get_user_orders"),
      ("description", PyVal.str "Get user's recent orders"),
      ("inputSchema", PyVal.dict [("type", PyVal.str "object"),
        ("properties", PyVal.dict
          [("user_id", PyVal.dict [("type", PyVal.str "string"),
             ("description", PyVal.str "User ID")]),
           ("limit", PyVal.dict [("type", PyVal.str "number"),
             ("description", PyVal.str "Number of orders"), ("default", PyVal.int 10)]),
           ("token", PyVal.dict [("type", PyVal.str "string"),
             ("description", PyVal.str "User auth token (optional)")])]),
        ("required", PyVal.list [PyVal.str "user_id"])])],
     PyVal.dict [("name", PyVal.str "update_user_settings"),
      ("description", PyVal.str "Update user preferences and settings"),
      ("inputSchema", PyVal.dict [("type", PyVal.str "object"),
        ("properties", PyVal.dict
          [("user_id", PyVal.dict [("type", PyVal.str "string"),
             ("description", PyVal.str "User ID")]),
           ("settings", PyVal.dict [("type", PyVal.str "object"),
             ("description", PyVal.str "Settings to update")]),
           ("token", PyVal.dict [("type", PyVal.str "string"),
             ("description", PyVal.str "User auth token (optional)")])]),
        ("required", PyVal.list [PyVal.str "user_id", PyVal.str "settings"])])],
     PyVal.dict [("name", PyVal.str "test_connection"),
      ("description", PyVal.str "Test connection to APIs and return status"),
      ("inputSchema", PyVal.dict [("type", PyVal.str "object"),
        ("properties", PyVal.dict [])])]])]

/-- `MCPHTTPBridge.list_resources` (src/mcp-bridge.py lines 116-127). -/
def bridgeResourcesList : PyVal :=
  PyVal.dict [("resources", PyVal.list
    [PyVal.dict [("uri", PyVal.str "webapp://current-state/\x7buser_id\x7d"),
      ("name", PyVal.str "Current User State"),
      ("description", PyVal.str "Get current state for a specific user"),
      ("mimeType", PyVal.str "application/json")]])]

/-- The `params.get(...)` access shared by the `tools/call` and
`resources/read` branches: when `params` is a dict the handler produces a
result response; otherwise `params.get` raises `AttributeError`, the
per-line `except` catches it and (since `request` is a dict here,
`request.get("id")` succeeds) emits a code -1 error response correlated
to the same id (src/mcp-bridge.py lines 246-253). -/
def callWithParams (rid : PyVal) (handler : List (String × PyVal) → PyVal)
    (params : PyVal) : PyVal :=
  match params with
  | PyVal.dict pd => rpcResult rid (handler pd)
  | p => rpcError rid (-1) (noGetMsg p)

/-- The body of the per-line loop of `main` (src/mcp-bridge.py lines
150-253).  `stubT name args` is the dict returned by
`bridge.call_tool(name, args)` and `stubR uri` the dict returned by
`bridge.read_resource(uri)` (both total: `make_request` catches every
exception).  A line whose JSON is not an object reaches
`request.get("method")`, which raises; the handler's own
`request.get("id")` then raises again, escaping to the outer
`except` and ending the loop (`fatal`). -/
def processLine (stubT : PyVal → PyVal → PyVal) (stubR : PyVal → PyVal) :
    Line → StepResult
  | Line.blank => StepResult.ok []
  | Line.malformed emsg => StepResult.ok [parseErrorResponse emsg]
  | Line.parsed j =>
    match j with
    | PyVal.dict d =>
      let method := dictGet d "method"
      let params := dictGetD d "params" (PyVal.dict [])
      let rid := dictGet d "id"
      if isStr method "initialize" then
        StepResult.ok [rpcResult rid initializeResult]
      else if isStr method "notifications/initialized" then
        StepResult.ok []
      else if isStr method "tools/list" then
        StepResult.ok [rpcResult rid bridgeToolsList]
      else if isStr method "tools/call" then
        StepResult.ok [callWithParams rid
          (fun pd => stubT (dictGet pd "name") (dictGetD pd "arguments" (PyVal.dict []))) params]
      else if isStr method "resources/list" then
        StepResult.ok [rpcResult rid bridgeResourcesList]
      else if isStr method "resources/read" then
        StepResult.ok [callWithParams rid (fun pd => stubR (dictGet pd "uri")) params]
      else
        StepResult.ok [rpcError rid (-32601) ("Method not found: " ++ pyToStr method)]
    | _ => StepResult.fatal []

/-- The read loop of `main`: processes lines in order until end-of-input
or a fatal exception, concatenating the stdout responses. -/
def runBridge (stubT : PyVal → PyVal → PyVal) (stubR : PyVal → PyVal) :
    List Line → List PyVal
  | [] => []
  | l :: ls =>
    match processLine stubT stubR l with
    | StepResult.ok out => out ++ runBridge stubT stubR ls
    | StepResult.fatal out => out

/-- Trivial stubs for closed counterexamples and witnesses. -/
def stub0T : PyVal → PyVal → PyVal := fun _ _ => PyVal.null

/-- Trivial resource stub for closed counterexamples and witnesses. -/
def stub0R : PyVal → PyVal := fun _ => PyVal.null

/-!
## Time-range resolution (spec §4.2, spec §8)

`src/` contains no date-range tool: `MCPServer.call_tool` dispatches only
the five user/lambda tools, none of which accepts a start/end pair.  The
emissions-by-period tool the spec describes lives outside `src/`, so its
range resolution is modelled from the spec below.
-/

/-- A UTC timestamp, to the second. -/
structure UTCTime where
  year : Nat
  month : Nat
  day : Nat
  hour : Nat
  minute : Nat
  second : Nat

/-- A resolved query time range and whether the year-to-date default was
applied. -/
structure ResolvedRange where
  rangeStart : UTCTime
  rangeEnd : UTCTime
  yearToDateDefault : Bool

/-- Modelled from the spec: the time-range resolution of the date-range
tools (the emissions-by-period tool), absent from src/.  Spec §4.2: "if
both start and end are absent, defaults to year-to-date (start =
January 1 00:00:00 UTC of the current year, end = current instant), and
records whether the default was applied."  A supplied bound is used as
given; its ISO-8601 parsing and ordering validation is outside this
claim. -/
def resolveTimeRange (startArg endArg : Option UTCTime) (now : UTCTime) : ResolvedRange :=
  match startArg, endArg with
  | Option.none, Option.none => ⟨⟨now.year, 1, 1, 0, 0, 0⟩, now, true⟩
  | s, e => ⟨s.getD ⟨now.year, 1, 1, 0, 0, 0⟩, e.getD now, false⟩

example :
    makeApiRequest (fun i => if i = 0 then UpResponse.resp 401 "" Option.none
                             else UpResponse.resp 200 "ok" (some (PyVal.dict []))) 3
      = (PyVal.dict [], 2) := rfl

example :
    makeApiRequest (fun _ => UpResponse.resp 401 "" Option.none) 3
      = (errDict "Authentication failed after all retry attempts", 3) := rfl

example :
    makeApiRequest (fun _ => UpResponse.resp 500 "boom" Option.none) 3
      = (errDict "API request failed: 500", 1) := rfl

example : call_tool sampleServer stubU "get_user_data" [] = (errDict "user_id is required", 0) := rfl

example : call_tool sampleServer stubU "get_user_data" [("user_id", PyVal.str "42")]
    = (errDict (noAttrMsg "api_base_url"), 0) := rfl

example : read_resource sampleServer stubU "other://x"
    = (PyVal.dict [("content", PyVal.str "\x7b\"error\": \"Resource not found\"\x7d")], 0) := rfl

example :
    processLine stub0T stub0R (Line.parsed (PyVal.dict
      [("jsonrpc", PyVal.str "2.0"), ("id", PyVal.int 1), ("method", PyVal.str "tools/list")]))
    = StepResult.ok [rpcResult (PyVal.int 1) bridgeToolsList] := rfl

/-- If the first `K` attempts (from `attempt`) are transient failures
(401 / timeout / transport exception) and attempt `attempt + K` succeeds
with HTTP 200 and a JSON body, the loop returns that JSON after exactly
`K + 1` invocations, provided `K < fuel`. -/
theorem makeApiRequestAux_transient_then_success
    (stub : Nat → UpResponse) (v : PyVal) (body : String) :
    ∀ (K attempt fuel : Nat), K < fuel →
    (∀ i, i < K → isTransient (stub (attempt + i)) = true) →
    stub (attempt + K) = UpResponse.resp 200 body (some v) →
    makeApiRequestAux stub attempt fuel = (v, K + 1) := by
  intro K
  induction K with
  | zero =>
    intro attempt fuel hKf hpre hsucc
    obtain ⟨f, rfl⟩ : ∃ f, fuel = f + 1 := ⟨fuel - 1, by omega⟩
    rw [Nat.add_zero] at hsucc
    simp [makeApiRequestAux, hsucc]
  | succ k ih =>
    intro attempt fuel hKf hpre hsucc
    obtain ⟨f, rfl⟩ : ∃ f, fuel = f + 1 := ⟨fuel - 1, by omega⟩
    have hf : f ≠ 0 := by omega
    have ht : isTransient (stub attempt) = true := by
      have := hpre 0 (by omega)
      simpa using this
    have hr : makeApiRequestAux stub (attempt + 1) f = (v, k + 1) := by
      apply ih
      · omega
      · intro i hi
        have h := hpre (i + 1) (by omega)
        have heq : attempt + (i + 1) = attempt + 1 + i := by omega
        rwa [heq] at h
      · have heq : attempt + (k + 1) = attempt + 1 + k := by omega
        rwa [heq] at hsucc
    simp only [makeApiRequestAux]
    cases hu : stub attempt with
    | resp st b js =>
      rw [hu] at ht
      simp only [isTransient, beq_iff_eq] at ht
      subst ht
      simp [hf, hr]
    | timeout =>
      simp [hf, hr]
    | exc m =>
      simp [hf, hr]

/-- If every attempt answers HTTP 401, the loop consumes all its fuel and
returns the authentication-exhausted error after `fuel` invocations. -/
theorem makeApiRequestAux_all401 (stub : Nat → UpResponse)
    (hall : ∀ i, ∃ b j, stub i = UpResponse.resp 401 b j) :
    ∀ fuel attempt, 1 ≤ fuel →
    makeApiRequestAux stub attempt fuel
      = (errDict "Authentication failed after all retry attempts", fuel) := by
  intro fuel
  induction fuel with
  | zero => intro attempt h; omega
  | succ f ih =>
    intro attempt _
    obtain ⟨b, j, hb⟩ := hall attempt
    simp only [makeApiRequestAux]
    rw [hb]
    by_cases hf : f = 0
    · subst hf; simp
    · have h := ih (attempt + 1) (by omega)
      simp [hf, h]

/-- C1: on 401, timeout, or a transport exception the Upstream Client
retries: with a stub failing transiently on the first N-1 attempts and
answering 200 on the Nth (N ≤ maxRetry), `_make_api_request` succeeds
after exactly N invocations; with a stub that always answers 401, it
returns the authentication-exhausted error after exactly maxRetry
invocations. -/
theorem c1_retry_behavior (maxRetry N : Nat) (stub stubAll : Nat → UpResponse)
    (v : PyVal) (body : String)
    (hN : 1 ≤ N) (hNmax : N ≤ maxRetry)
    (hpre : ∀ i, i < N - 1 → isTransient (stub i) = true)
    (hsucc : stub (N - 1) = UpResponse.resp 200 body (some v))
    (hall : ∀ i, ∃ b j, stubAll i = UpResponse.resp 401 b j) :
    makeApiRequest stub maxRetry = (v, N)
    ∧ makeApiRequest stubAll maxRetry
        = (errDict "Authentication failed after all retry attempts", maxRetry) := by
  constructor
  · have h := makeApiRequestAux_transient_then_success stub v body (N - 1) 0 maxRetry
      (by omega)
      (fun i hi => by simpa using hpre i hi)
      (by simpa using hsucc)
    have heq : N - 1 + 1 = N := by omega
    rw [makeApiRequest, h, heq]
  · exact makeApiRequestAux_all401 stubAll hall maxRetry 0 (by omega)

/-- Witness for `c1_retry_behavior` at maxRetry = 3, N = 2. -/
theorem c1_retry_behavior_witness :
    makeApiRequest c1stub 3 = (PyVal.dict [], 2)
    ∧ makeApiRequest c1stubAll 3
        = (errDict "Authentication failed after all retry attempts", 3) :=
  c1_retry_behavior 3 2 c1stub c1stubAll (PyVal.dict []) "\x7b\x7d"
    (by omega) (by omega)
    (by intro i hi
        have h0 : i = 0 := by omega
        subst h0
        rfl)
    rfl (fun _ => ⟨"unauthorized", Option.none, rfl⟩)

/-- C4 counterexample: a 500 answer is not retried (1 invocation), but the
returned error does not carry the response body — two stubs differing only
in the body produce identical results, and the result's only message is
"API request failed: 500". -/
theorem c4_counterexample :
    makeApiRequest (fun _ => UpResponse.resp 500 "boom" Option.none) 3
      = makeApiRequest (fun _ => UpResponse.resp 500 "zap" Option.none) 3
    ∧ makeApiRequest (fun _ => UpResponse.resp 500 "boom" Option.none) 3
      = (errDict "API request failed: 500", 1) := ⟨rfl, rfl⟩

/-- C4 amended: an HTTP status ≥ 400 other than 401 is not retried:
`_make_api_request` returns `{error: "API request failed: <status>"}` —
carrying the status but not the body — after exactly 1 invocation. -/
theorem c4_no_retry_on_4xx (maxRetry st : Nat) (body : String) (js : Option PyVal)
    (stub : Nat → UpResponse)
    (hmax : 1 ≤ maxRetry) (hst : 400 ≤ st) (hne : st ≠ 401)
    (h0 : stub 0 = UpResponse.resp st body js) :
    makeApiRequest stub maxRetry = (errDict ("API request failed: " ++ toString st), 1) := by
  obtain ⟨m, rfl⟩ : ∃ m, maxRetry = m + 1 := ⟨maxRetry - 1, by omega⟩
  rw [makeApiRequest]
  simp [makeApiRequestAux, h0, hne, hst]

/-- Witness for `c4_no_retry_on_4xx` at status 500 with maxRetry = 3. -/
theorem c4_no_retry_witness :
    makeApiRequest (fun _ => UpResponse.resp 500 "Internal Server Error" Option.none) 3
      = (errDict "API request failed: 500", 1) :=
  c4_no_retry_on_4xx 3 500 "Internal Server Error" Option.none
    (fun _ => UpResponse.resp 500 "Internal Server Error" Option.none)
    (by omega) (by omega) (by omega) rfl

/-- C2 (code-bug evidence): with the required argument present, the
handlers never invoke the Upstream Client.  `_get_user_data` evaluates
`self.api_base_url` and `_call_lambda_api` evaluates
`self.api_gateway_url`; neither attribute exists on `MCPServer` (its
`__init__` assigns `dch_api_url` / `platform_api_url`), so the handlers
raise `AttributeError`, which `call_tool` converts to `{"error": str(e)}`
— zero upstream invocations, no auth headers, no payload envelope. -/
theorem c2_attribute_error (s : Server) (stub : Nat → UpResponse) :
    call_tool s stub "get_user_data" [("user_id", PyVal.str "42")]
      = (errDict (noAttrMsg "api_base_url"), 0)
    ∧ call_tool s stub "call_lambda_api" [("endpoint", PyVal.str "reports/run")]
      = (errDict (noAttrMsg "api_gateway_url"), 0) := ⟨rfl, rfl⟩

/-- C3 counterexample: calling `update_user_settings` with `user_id`
present but `settings` missing yields `{"error": "user_id and settings
are required"}` (with zero upstream invocations), which is not of the
form `"<field> is required"`. -/
theorem c3_counterexample :
    call_tool sampleServer stubU "update_user_settings" [("user_id", PyVal.str "42")]
      = (errDict "user_id and settings are required", 0)
    ∧ "user_id and settings are required" ≠ "user_id is required"
    ∧ "user_id and settings are required" ≠ "settings is required"
    ∧ List.isSuffixOf " is required".data "user_id and settings are required".data = false :=
  ⟨rfl, by decide, by decide, by decide⟩

/-- C3 amended: a tool call missing a required argument returns a
validation error naming the missing field(s) — `"<field> is required"`
for single-field tools, the combined `"user_id and settings are
required"` for `update_user_settings` — and issues no upstream request. -/
theorem c3_missing_argument (s : Server) (stub : Nat → UpResponse)
    (args : List (String × PyVal)) :
    (isFalsy (dictGet args "user_id") = true →
      call_tool s stub "get_user_data" args = (errDict "user_id is required", 0)
      ∧ call_tool s stub "get_user_orders" args = (errDict "user_id is required", 0))
    ∧ (isFalsy (dictGet args "user_id") = true ∨ isFalsy (dictGet args "settings") = true →
      call_tool s stub "update_user_settings" args
        = (errDict "user_id and settings are required", 0))
    ∧ (isFalsy (dictGet args "endpoint") = true →
      call_tool s stub "call_lambda_api" args = (errDict "endpoint is required", 0))
    ∧ (isFalsy (dictGet args "query") = true →
      call_tool s stub "search_users" args = (errDict "query is required", 0)) := by
  refine ⟨fun h => ⟨?_, ?_⟩, fun h => ?_, fun h => ?_, fun h => ?_⟩
  · simp [call_tool, getUserData, runHandler, h]
  · simp [call_tool, getUserOrders, runHandler, h]
  · rcases h with h | h <;> simp [call_tool, updateUserSettings, runHandler, h]
  · simp [call_tool, callLambdaApi, runHandler, h]
  · simp [call_tool, searchUsers, runHandler, h]

/-- Witness for `c3_missing_argument`: with empty arguments every
required field is absent and each tool returns its validation error with
zero upstream invocations. -/
theorem c3_missing_argument_witness :
    call_tool sampleServer stubU "get_user_data" [] = (errDict "user_id is required", 0)
    ∧ call_tool sampleServer stubU "update_user_settings" []
        = (errDict "user_id and settings are required", 0)
    ∧ call_tool sampleServer stubU "call_lambda_api" [] = (errDict "endpoint is required", 0)
    ∧ call_tool sampleServer stubU "search_users" [] = (errDict "query is required", 0) := by
  have h := c3_missing_argument sampleServer stubU []
  exact ⟨(h.1 (by decide)).1, h.2.1 (Or.inl (by decide)), h.2.2.1 (by decide),
    h.2.2.2 (by decide)⟩

/-- C6 (code-bug evidence): a URI of the recognized form
`webapp://current-state/<id>` does not dispatch to the user-state
endpoint: the handler evaluates `self.api_base_url`, which raises
`AttributeError`, and its own `except` returns the error as the content
payload with zero upstream invocations.  Any other URI form returns the
literal not-found payload (note the `json.dumps` separator `": "`)
without a network call. -/
theorem c6_resource_attribute_error (s : Server) (stub : Nat → UpResponse) :
    read_resource s stub "webapp://current-state/42"
      = (PyVal.dict [("content",
          PyVal.str (jsonDumps (errDict (noAttrMsg "api_base_url"))))], 0)
    ∧ read_resource s stub "other://current-state/42"
      = (PyVal.dict [("content", PyVal.str "\x7b\"error\": \"Resource not found\"\x7d")], 0) :=
  ⟨rfl, rfl⟩

/-- C9: a tool name outside the dispatch chain returns
`{"error": "Unknown tool: <name>"}` as an ordinary value with zero
upstream invocations. -/
theorem c9_unknown_tool (s : Server) (stub : Nat → UpResponse) (name : String)
    (args : List (String × PyVal))
    (h1 : name ≠ "get_user_data") (h2 : name ≠ "get_user_orders")
    (h3 : name ≠ "update_user_settings") (h4 : name ≠ "call_lambda_api")
    (h5 : name ≠ "search_users") :
    call_tool s stub name args = (errDict ("Unknown tool: " ++ name), 0) := by
  simp [call_tool, h1, h2, h3, h4, h5]

/-- Witness for `c9_unknown_tool` at name "ghost_tool". -/
theorem c9_unknown_tool_witness :
    call_tool sampleServer stubU "ghost_tool" [] = (errDict "Unknown tool: ghost_tool", 0) :=
  c9_unknown_tool sampleServer stubU "ghost_tool" []
    (by decide) (by decide) (by decide) (by decide) (by decide)

/-- C10: a required argument that is present but falsy (empty string, 0,
False, None, or an empty collection) is treated exactly like an absent
one: the `if not <arg>` check fires, the same missing-argument error is
returned, and no upstream is contacted. -/
theorem c10_falsy_required_argument (s : Server) (stub : Nat → UpResponse) (v : PyVal)
    (hv : isFalsy v = true) :
    call_tool s stub "get_user_data" [("user_id", v)]
      = call_tool s stub "get_user_data" []
    ∧ call_tool s stub "get_user_data" [("user_id", v)] = (errDict "user_id is required", 0)
    ∧ call_tool s stub "get_user_orders" [("user_id", v)] = (errDict "user_id is required", 0)
    ∧ call_tool s stub "search_users" [("query", v)] = (errDict "query is required", 0) := by
  have hnull : isFalsy PyVal.null = true := rfl
  refine ⟨?_, ?_, ?_, ?_⟩ <;>
    simp [call_tool, getUserData, getUserOrders, searchUsers, runHandler, dictGet, hv, hnull]

/-- Witness for `c10_falsy_required_argument` at the empty string and 0. -/
theorem c10_falsy_witness :
    call_tool sampleServer stubU "get_user_data" [("user_id", PyVal.str "")]
      = (errDict "user_id is required", 0)
    ∧ call_tool sampleServer stubU "search_users" [("query", PyVal.int 0)]
      = (errDict "query is required", 0) :=
  ⟨(c10_falsy_required_argument sampleServer stubU (PyVal.str "") (by decide)).2.1,
   (c10_falsy_required_argument sampleServer stubU (PyVal.int 0) (by decide)).2.2.2⟩

/-- The id field of the response produced by `callWithParams` is always
the request's id, whatever shape `params` has. -/
theorem pyGet_callWithParams_id (rid : PyVal) (handler : List (String × PyVal) → PyVal)
    (p : PyVal) : pyGet (callWithParams rid handler p) "id" = rid := by
  cases p <;> rfl

/-- C7 counterexample: the parse-error response for a malformed line has
code -32700 but carries no `"id"` member at all (the claim asserts a
null id); additionally a whitespace-only line — also not valid JSON — is
skipped without any response. -/
theorem c7_counterexample :
    processLine stub0T stub0R (Line.malformed "Expecting value: line 1 column 1 (char 0)")
      = StepResult.ok [parseErrorResponse "Expecting value: line 1 column 1 (char 0)"]
    ∧ pyHasKey (parseErrorResponse "Expecting value: line 1 column 1 (char 0)") "id" = false
    ∧ processLine stub0T stub0R Line.blank = StepResult.ok [] :=
  ⟨rfl, rfl, rfl⟩

/-- C7 amended: a nonblank stdin line that is not valid JSON makes the
loop emit exactly one JSON-RPC parse-error response with code -32700 —
whose `"id"` member is omitted entirely rather than null — and continue
with the remaining lines. -/
theorem c7_parse_error_behavior (stubT : PyVal → PyVal → PyVal) (stubR : PyVal → PyVal)
    (emsg : String) (rest : List Line) :
    runBridge stubT stubR (Line.malformed emsg :: rest)
      = parseErrorResponse emsg :: runBridge stubT stubR rest
    ∧ pyGet (pyGet (parseErrorResponse emsg) "error") "code" = PyVal.int (-32700)
    ∧ pyHasKey (parseErrorResponse emsg) "id" = false := by
  refine ⟨?_, rfl, rfl⟩
  simp [runBridge, processLine]

/-- C8 counterexample: a request carrying `id: 5` with method
`notifications/initialized` receives no response at all, while an
id-less `tools/list` notification receives a response (with a null id
member). -/
theorem c8_counterexample :
    processLine stub0T stub0R (Line.parsed (PyVal.dict
        [("jsonrpc", PyVal.str "2.0"), ("id", PyVal.int 5),
         ("method", PyVal.str "notifications/initialized")]))
      = StepResult.ok []
    ∧ processLine stub0T stub0R (Line.parsed (PyVal.dict
        [("jsonrpc", PyVal.str "2.0"), ("method", PyVal.str "tools/list")]))
      = StepResult.ok [rpcResult PyVal.null bridgeToolsList] :=
  ⟨rfl, rfl⟩

/-- C8 amended: every line parsing to a JSON object whose method is not
"notifications/initialized" receives exactly one response whose id
equals the object's id (null when absent) — whether or not an id is
present; an object with method "notifications/initialized" receives
none, even when it carries an id. -/
theorem c8_one_response_per_object (stubT : PyVal → PyVal → PyVal) (stubR : PyVal → PyVal)
    (d : List (String × PyVal)) :
    (isStr (dictGet d "method") "notifications/initialized" = false →
      ∃ r, processLine stubT stubR (Line.parsed (PyVal.dict d)) = StepResult.ok [r]
        ∧ pyGet r "id" = dictGet d "id")
    ∧ (isStr (dictGet d "method") "notifications/initialized" = true →
      processLine stubT stubR (Line.parsed (PyVal.dict d)) = StepResult.ok []) := by
  constructor
  · intro h
    by_cases h1 : isStr (dictGet d "method") "initialize" = true
    · exact ⟨rpcResult (dictGet d "id") initializeResult, by simp [processLine, h1], rfl⟩
    by_cases h3 : isStr (dictGet d "method") "tools/list" = true
    · exact ⟨rpcResult (dictGet d "id") bridgeToolsList,
        by simp [processLine, h1, h, h3], rfl⟩
    by_cases h4 : isStr (dictGet d "method") "tools/call" = true
    · exact ⟨callWithParams (dictGet d "id")
        (fun pd => stubT (dictGet pd "name") (dictGetD pd "arguments" (PyVal.dict [])))
        (dictGetD d "params" (PyVal.dict [])),
        by simp [processLine, h1, h, h3, h4], pyGet_callWithParams_id _ _ _⟩
    by_cases h5 : isStr (dictGet d "method") "resources/list" = true
    · exact ⟨rpcResult (dictGet d "id") bridgeResourcesList,
        by simp [processLine, h1, h, h3, h4, h5], rfl⟩
    by_cases h6 : isStr (dictGet d "method") "resources/read" = true
    · exact ⟨callWithParams (dictGet d "id") (fun pd => stubR (dictGet pd "uri"))
        (dictGetD d "params" (PyVal.dict [])),
        by simp [processLine, h1, h, h3, h4, h5, h6], pyGet_callWithParams_id _ _ _⟩
    · exact ⟨rpcError (dictGet d "id") (-32601)
        ("Method not found: " ++ pyToStr (dictGet d "method")),
        by simp [processLine, h1, h, h3, h4, h5, h6], rfl⟩
  · intro h
    have h1 : isStr (dictGet d "method") "initialize" = false := by
      cases hm : dictGet d "method" <;> simp_all [isStr]
    simp [processLine, h1, h]

/-- Witness for `c8_one_response_per_object`: an id-bearing `tools/list`
request gets exactly one correlated response; a
`notifications/initialized` notification gets none. -/
theorem c8_one_response_witness :
    (∃ r, processLine stub0T stub0R (Line.parsed (PyVal.dict
        [("jsonrpc", PyVal.str "2.0"), ("id", PyVal.int 1),
         ("method", PyVal.str "tools/list")]))
      = StepResult.ok [r]
      ∧ pyGet r "id" = dictGet
          [("jsonrpc", PyVal.str "2.0"), ("id", PyVal.int 1),
           ("method", PyVal.str "tools/list")] "id")
    ∧ processLine stub0T stub0R (Line.parsed (PyVal.dict
        [("jsonrpc", PyVal.str "2.0"), ("method", PyVal.str "notifications/initialized")]))
      = StepResult.ok [] :=
  ⟨(c8_one_response_per_object stub0T stub0R _).1 rfl,
   (c8_one_response_per_object stub0T stub0R _).2 rfl⟩

/-- C5: with neither bound supplied, the resolved range runs from
January 1 00:00:00 UTC of the current year to the current instant and is
marked as a year-to-date default. -/
theorem c5_year_to_date_default (now : UTCTime) :
    resolveTimeRange Option.none Option.none now
      = ⟨⟨now.year, 1, 1, 0, 0, 0⟩, now, true⟩ := rfl
